import Mathlib

/-
  Verification development for the ISBN-Search repository.

  The ISBN identity and record-reconciliation logic of the repository is
  embedded shallowly: JS strings become lists of characters, JS numbers on
  the reachable code paths are naturals with an explicit NaN value
  (Option Nat, none = NaN), JS objects used as records and as key-value
  stores become functions into Option.

  Embedded code:
    - public/js/database.js, class BookDatabase: cleanISBN,
      convertISBN10ToISBN13, convertISBN13ToISBN10, normalizeISBN,
      getISBNVariants, findBook, addBook, updateBookField, deleteBook;
    - public/js/api.js, class BookAPIService: validateISBN;
    - server.js, class ISBNServer: cleanISBN, normalizeISBN,
      getISBNVariants, validateISBN, updateBook, deleteBook.
-/

/-- JS strings are modelled as lists of characters. -/
abbrev JStr := List Char

/-- Conversion from a string literal to the JS string model. -/
def jstr (s : String) : JStr := s.toList

/-- The character class of the JS regular-expression escape backslash-s. -/
def isJSWhitespace (c : Char) : Bool :=
  c.toNat = 9 || c.toNat = 10 || c.toNat = 11 || c.toNat = 12 || c.toNat = 13 ||
  c.toNat = 32 || c.toNat = 160 || c.toNat = 5760 ||
  (8192 ≤ c.toNat && c.toNat ≤ 8202) || c.toNat = 8232 || c.toNat = 8233 ||
  c.toNat = 8239 || c.toNat = 8287 || c.toNat = 12288 || c.toNat = 65279

/-- A character survives the replace of the hyphen-or-whitespace class. -/
def keepChar (c : Char) : Bool := !(c = '-' || isJSWhitespace c)

/-- cleanISBN from both classes: isbn.replace of hyphens and whitespace with
the empty string. -/
def cleanISBN (s : JStr) : JStr := s.filter keepChar

/-- The reserved easter-egg identifier. -/
def sentinel : JStr := jstr ("6666666666666")

/-- JS parseInt applied to a single character: a decimal digit parses to its
value, anything else gives NaN. -/
def parseIntChar (c : Char) : Option Nat :=
  if c.isDigit then some (c.toNat - 48) else none

/-- JS addition with NaN propagation. -/
def jsAdd : Option Nat → Option Nat → Option Nat
  | some a, some b => some (a + b)
  | _, _ => none

/-- JS multiplication with NaN propagation. -/
def jsMul : Option Nat → Option Nat → Option Nat
  | some a, some b => some (a * b)
  | _, _ => none

/-- JS number-to-string conversion on the values reached here: NaN prints as
NaN, a natural prints in decimal. -/
def numToStr : Option Nat → JStr
  | none => jstr ("NaN")
  | some n => Nat.toDigits 10 n

/-- The loop of convertISBN10ToISBN13 and of the server normalizeISBN:
sum of parseInt of each character times 1 for even index, 3 for odd. -/
def sum13 : JStr → Nat → Option Nat
  | [], _ => some 0
  | c :: cs, i =>
      jsAdd (jsMul (parseIntChar c) (some (if i % 2 = 0 then 1 else 3))) (sum13 cs (i + 1))

/-- The loop of convertISBN13ToISBN10: sum of parseInt of each character
times the weight 10 minus the index. -/
def sum10 : JStr → Nat → Option Nat
  | [], _ => some 0
  | c :: cs, i =>
      jsAdd (jsMul (parseIntChar c) (some (10 - i))) (sum10 cs (i + 1))

/-- The check character branch of convertISBN13ToISBN10: 10 gives X, 11
gives 0, otherwise the digit itself; NaN stringifies to NaN. -/
def checkChar10 : Option Nat → JStr
  | none => jstr ("NaN")
  | some d =>
      if d = 10 then jstr ("X")
      else if d = 11 then jstr ("0") else Nat.toDigits 10 d

/-- startsWith with a three-character pattern, as used with 978 and 979. -/
def startsWith3 (a b c : Char) : JStr → Bool
  | x :: y :: z :: _ => x = a && y = b && z = c
  | _ => false

/-- Insertion into a JS Set converted back to an array: a present element
keeps its original position, a new element is appended. -/
def addUnique (l : List JStr) (x : JStr) : List JStr :=
  if x ∈ l then l else l ++ [x]

/-- The regular expression of the client ISBN-10 format check: nine digits
followed by a digit or X, anchored. -/
def matches10 (l : JStr) : Bool :=
  l.length = 10 && (l.take 9).all Char.isDigit &&
    (match l.drop 9 with
     | [c] => c.isDigit || c = 'X'
     | _ => false)

/-- The regular expression of the client ISBN-13 format check: thirteen
digits, anchored. -/
def matches13 (l : JStr) : Bool :=
  l.length = 13 && l.all Char.isDigit

/-- The validation error taxonomy; each constructor stands for one of the
literal message strings of the source. -/
inductive ISBNErr
  | invalidLength
  | invalidPrefix
  | invalidFormat10
  | invalidFormat13
deriving DecidableEq

/-- The shape of the objects returned by both validators. -/
inductive ValidationResult
  | valid (isbn : JStr)
  | invalid (err : ISBNErr)
deriving DecidableEq

/-- JS values stored in book records. -/
inductive JSVal
  | str (s : JStr)
  | num (n : Nat)
deriving DecidableEq

/-- JS truthiness of the stored values: the empty string and zero are falsy. -/
def truthy : JSVal → Bool
  | .str s => !s.isEmpty
  | .num n => n ≠ 0

/-- A book record: a JS object mapping field names to values. -/
def Record := String → Option JSVal

/-- A key-value store of records, keyed by identifier strings. -/
def Store := JStr → Option Record

/-- The empty record. -/
def emptyRec : Record := fun _ => none

/-- Property assignment on a record object. -/
def setF (r : Record) (f : String) (v : JSVal) : Record :=
  fun g => if g = f then some v else r g

/-- JS object spread of a then b: fields of b win. -/
def spread (a b : Record) : Record :=
  fun f => match b f with
    | some v => some v
    | none => a f

/-- The empty store. -/
def emptyStore : Store := fun _ => none

/-- Store update: assignment of some record, or deletion with none. -/
def setK (st : Store) (k : JStr) (v : Option Record) : Store :=
  fun j => if j = k then v else st j

namespace BookDatabase

/-- convertISBN10ToISBN13 of database.js: null unless the input has length
10, otherwise 978 plus the first nine characters plus the weighted check
digit of those twelve. -/
def convertISBN10ToISBN13 (isbn10 : JStr) : Option JStr :=
  if isbn10.length ≠ 10 then none
  else
    let p := jstr ("978") ++ isbn10.take 9
    some (p ++ numToStr (Option.map (fun n => (10 - n % 10) % 10) (sum13 p 0)))

/-- convertISBN13ToISBN10 of database.js: null unless the input has length 13
and starts with 978, otherwise characters 3 to 11 plus the mod-11 check
character. -/
def convertISBN13ToISBN10 (isbn13 : JStr) : Option JStr :=
  if isbn13.length ≠ 13 then none
  else if !(startsWith3 '9' '7' '8' isbn13) then none
  else
    let core := (isbn13.drop 3).take 9
    some (core ++ checkChar10 (Option.map (fun s => (11 - s % 11) % 11) (sum10 core 0)))

/-- normalizeISBN of database.js: clean, keep the sentinel and any
13-character string unchanged, convert a 10-character string, and fall back
to the cleaned string. -/
def normalizeISBN (isbn : JStr) : JStr :=
  let clean := cleanISBN isbn
  if clean = sentinel then clean
  else if clean.length = 13 then clean
  else if clean.length = 10 then
    match convertISBN10ToISBN13 clean with
    | some isbn13 => if isbn13.isEmpty then clean else isbn13
    | none => clean
  else clean

/-- getISBNVariants of database.js: a Set seeded with the cleaned input,
extended with the converted ISBN-10 for a 978 ISBN-13 and with the converted
ISBN-13 for an ISBN-10, read back in insertion order. -/
def getISBNVariants (isbn : JStr) : List JStr :=
  let clean := cleanISBN isbn
  let v1 := [clean]
  let v2 :=
    if clean.length = 13 && startsWith3 '9' '7' '8' clean then
      match convertISBN13ToISBN10 clean with
      | some isbn10 => if isbn10.isEmpty then v1 else addUnique v1 isbn10
      | none => v1
    else v1
  if clean.length = 10 then
    match convertISBN10ToISBN13 clean with
    | some isbn13 => if isbn13.isEmpty then v2 else addUnique v2 isbn13
    | none => v2
  else v2

/-- The probe loop shared by findBook: the first variant present in the
store wins, together with the key it was found under. -/
def findBookAux : List JStr → Store → Option (Record × JStr)
  | [], _ => none
  | v :: vs, st =>
      match st v with
      | some r => some (r, v)
      | none => findBookAux vs st

/-- findBook of database.js: probe every variant and return a copy of the
stored record extended with the foundWithISBN field, together with the key. -/
def findBook (st : Store) (isbn : JStr) : Option (Record × JStr) :=
  match findBookAux (getISBNVariants isbn) st with
  | some (r, v) => some (setF r ("foundWithISBN") (JSVal.str v), v)
  | none => none

/-- addBook of database.js: normalize the key, look the book up by any
variant, merge spread-style with incoming fields winning, refresh
lastUpdated, delete the old entry when it was stored under a different key,
and write the final record under the normalized key.  Returns the new store
and the record written. -/
def addBook (st : Store) (isbn : JStr) (bookInfo : Record) (now : JSVal) :
    Store × Record :=
  let normalized := normalizeISBN isbn
  match findBook st isbn with
  | some (existingBook, foundKey) =>
      let final := setF (spread existingBook bookInfo) ("lastUpdated") now
      let st1 := if foundKey ≠ normalized then setK st foundKey none else st
      (setK st1 normalized (some final), final)
  | none =>
      let src :=
        match bookInfo ("source") with
        | some v => if truthy v then v else JSVal.str (jstr ("unknown"))
        | none => JSVal.str (jstr ("unknown"))
      let final := setF (setF bookInfo ("lastUpdated") now) ("source") src
      (setK st normalized (some final), final)

/-- updateBookField of database.js: look the book up by any variant, migrate
the raw stored record to the normalized key when stored elsewhere, then set
the field and refresh lastUpdated.  Returns the new store and the success
flag. -/
def updateBookField (st : Store) (isbn : JStr) (field : String) (v : JSVal)
    (now : JSVal) : Store × Bool :=
  match findBook st isbn with
  | none => (st, false)
  | some (_, foundKey) =>
      let normalized := normalizeISBN isbn
      let st1 :=
        if foundKey ≠ normalized then
          setK (setK st normalized (st foundKey)) foundKey none
        else st
      match st1 normalized with
      | some r =>
          (setK st1 normalized (some (setF (setF r field v) ("lastUpdated") now)), true)
      | none => (st1, true)
      -- the none branch is unreachable: the lookup guarantees an entry at
      -- the normalized key here, and the source would fault on it

/-- The deletion loop of deleteBook: every variant present in the store is
removed and the flag records whether any was. -/
def deleteAux : List JStr → Store → Bool → Store × Bool
  | [], st, d => (st, d)
  | v :: vs, st, d =>
      match st v with
      | some _ => deleteAux vs (setK st v none) true
      | none => deleteAux vs st d

/-- deleteBook of database.js: delete every variant of the identifier. -/
def deleteBook (st : Store) (isbn : JStr) : Store × Bool :=
  deleteAux (getISBNVariants isbn) st false

end BookDatabase

namespace BookAPIService

/-- validateISBN of api.js: sentinel short-circuit, then length, then the
character-class checks, then the 978 or 979 prefix for ISBN-13. -/
def validateISBN (isbn : JStr) : ValidationResult :=
  let clean := cleanISBN isbn
  if clean = sentinel then .valid clean
  else if clean.length ≠ 10 && clean.length ≠ 13 then .invalid .invalidLength
  else if clean.length = 10 then
    if !(matches10 clean) then .invalid .invalidFormat10
    else .valid clean
  else
    if !(matches13 clean) then .invalid .invalidFormat13
    else if !(startsWith3 '9' '7' '8' clean) && !(startsWith3 '9' '7' '9' clean) then
      .invalid .invalidPrefix
    else .valid clean

end BookAPIService

namespace ISBNServer

/-- normalizeISBN of server.js: clean, keep the sentinel and any 13-character
string, convert a 10-character string inline with the same weighted sum as
the client, and fall back to the cleaned string. -/
def normalizeISBN (isbn : JStr) : JStr :=
  let clean := cleanISBN isbn
  if clean = sentinel then clean
  else if clean.length = 13 then clean
  else if clean.length = 10 then
    let p := jstr ("978") ++ clean.take 9
    p ++ numToStr (Option.map (fun n => (10 - n % 10) % 10) (sum13 p 0))
  else clean

/-- getISBNVariants of server.js: an array seeded with the cleaned input;
for a 978 ISBN-13 the bare substring of characters 3 to 11 is pushed, and
for an ISBN-10 the normalized form is pushed when different. -/
def getISBNVariants (isbn : JStr) : List JStr :=
  let clean := cleanISBN isbn
  let v1 := [clean]
  let v2 :=
    if clean.length = 13 && startsWith3 '9' '7' '8' clean then
      v1 ++ [(clean.drop 3).take 9]
    else v1
  if clean.length = 10 then
    let isbn13 := normalizeISBN clean
    if isbn13 ≠ clean then v2 ++ [isbn13] else v2
  else v2

/-- validateISBN of server.js: length, then the 978 or 979 prefix for
length 13.  There is no sentinel short-circuit and no character-class check. -/
def validateISBN (isbn : JStr) : ValidationResult :=
  let clean := cleanISBN isbn
  if clean.length ≠ 10 && clean.length ≠ 13 then .invalid .invalidLength
  else if clean.length = 13 &&
      !(startsWith3 '9' '7' '8' clean) && !(startsWith3 '9' '7' '9' clean) then
    .invalid .invalidPrefix
  else .valid clean

/-- updateBook of server.js: validate, look up the record under the cleaned
key only, and overwrite it with the spread of the existing record and the
updates, keeping the cleaned isbn and refreshing updatedAt.  Returns the new
store and the updated record when found. -/
def updateBook (st : Store) (isbn : JStr) (updates : Record) (now : JSVal) :
    Store × Option Record :=
  match validateISBN isbn with
  | .invalid _ => (st, none)
  | .valid clean =>
      match st clean with
      | none => (st, none)
      | some existing =>
          let final :=
            setF (setF (spread existing updates) ("isbn") (JSVal.str clean))
              ("updatedAt") now
          (setK st clean (some final), some final)

/-- deleteBook of server.js: validate, then delete the entry under the
cleaned key only; a missing entry reports not found. -/
def deleteBook (st : Store) (isbn : JStr) : Store × Bool :=
  match validateISBN isbn with
  | .invalid _ => (st, false)
  | .valid clean =>
      match st clean with
      | none => (st, false)
      | some _ => (setK st clean none, true)

end ISBNServer

/-- Bounds-checked character access: the JS indexing that would produce the
undefined value out of range is flagged as a fault here, so proving the
checked evaluation fault-free shows every access of the source loops stays
in range. -/
def charAtE (l : JStr) (i : Nat) : Except String Char :=
  match l.get? i with
  | some c => Except.ok c
  | none => Except.error ("index out of range")

namespace BookDatabase

/-- The conversion loop of convertISBN10ToISBN13, run by index exactly as
the source for loop does, under checked character access.  The first
argument counts the remaining iterations, the second is the index. -/
def sumLoopE13 (l : JStr) : Nat → Nat → Except String (Option Nat)
  | 0, _ => Except.ok (some 0)
  | n + 1, i =>
      match charAtE l i with
      | Except.error e => Except.error e
      | Except.ok c =>
          match sumLoopE13 l n (i + 1) with
          | Except.error e => Except.error e
          | Except.ok rest =>
              Except.ok (jsAdd (jsMul (parseIntChar c) (some (if i % 2 = 0 then 1 else 3))) rest)

/-- The conversion loop of convertISBN13ToISBN10 under checked character
access, nine iterations with weight 10 minus the index. -/
def sumLoopE10 (l : JStr) : Nat → Nat → Except String (Option Nat)
  | 0, _ => Except.ok (some 0)
  | n + 1, i =>
      match charAtE l i with
      | Except.error e => Except.error e
      | Except.ok c =>
          match sumLoopE10 l n (i + 1) with
          | Except.error e => Except.error e
          | Except.ok rest =>
              Except.ok (jsAdd (jsMul (parseIntChar c) (some (10 - i))) rest)

/-- convertISBN10ToISBN13 evaluated step by step with checked access: the
twelve loop iterations index the twelve-character working string. -/
def convertISBN10ToISBN13X (isbn10 : JStr) : Except String (Option JStr) :=
  if isbn10.length ≠ 10 then Except.ok none
  else
    let p := jstr ("978") ++ isbn10.take 9
    match sumLoopE13 p 12 0 with
    | Except.error e => Except.error e
    | Except.ok sum =>
        Except.ok (some (p ++ numToStr (Option.map (fun n => (10 - n % 10) % 10) sum)))

/-- convertISBN13ToISBN10 evaluated step by step with checked access: the
nine loop iterations index the nine-character core. -/
def convertISBN13ToISBN10X (isbn13 : JStr) : Except String (Option JStr) :=
  if isbn13.length ≠ 13 then Except.ok none
  else if !(startsWith3 '9' '7' '8' isbn13) then Except.ok none
  else
    let core := (isbn13.drop 3).take 9
    match sumLoopE10 core 9 0 with
    | Except.error e => Except.error e
    | Except.ok sum =>
        Except.ok (some (core ++ checkChar10 (Option.map (fun s => (11 - s % 11) % 11) sum)))

end BookDatabase

/-- A record holding only the title used in the concrete merge scenario. -/
def titleRec : Record :=
  fun f => if f = ("title") then some (JSVal.str (jstr ("Le Petit Prince"))) else none

/-- A record holding only the page count used in the concrete merge
scenario. -/
def pageRec : Record :=
  fun f => if f = ("pageCount") then some (JSVal.num 96) else none

/-- A one-field record used in the delete scenario. -/
def c3book : Record :=
  fun f => if f = ("title") then some (JSVal.str (jstr ("b"))) else none

/-- A store holding the delete-scenario record under its ISBN-13 key. -/
def c3store : Store := setK emptyStore (jstr ("9780156013987")) (some c3book)

/-- The existing record of the merge frame scenario: a stale ISBN-10 in its
isbn field, a title and a creation timestamp. -/
def c5existing : Record :=
  fun f =>
    if f = ("isbn") then some (JSVal.str (jstr ("0156013983")))
    else if f = ("title") then some (JSVal.str (jstr ("t")))
    else if f = ("createdAt") then some (JSVal.str (jstr ("T0")))
    else none

/-- A store holding the merge-frame record under its ISBN-13 key. -/
def c5store : Store := setK emptyStore (jstr ("9780156013987")) (some c5existing)

/-- The record produced by the client upsert of an empty update over the
merge-frame store. -/
def c5result : Record :=
  (BookDatabase.addBook c5store (jstr ("9780156013987")) emptyRec
    (JSVal.str (jstr ("T1")))).2












/-- Cleaning is idempotent because filtering is. -/
lemma clean_idem (s : JStr) : cleanISBN (cleanISBN s) = cleanISBN s := by
  unfold cleanISBN
  induction s with
  | nil => rfl
  | cons c cs ih =>
      by_cases h : keepChar c
      · simp [List.filter_cons, h, ih]
      · simp [List.filter_cons, h, ih]

/-- Every character of a cleaned string survives cleaning. -/
lemma mem_clean_keep {c : Char} {s : JStr} (h : c ∈ cleanISBN s) :
    keepChar c = true := (List.mem_filter.mp h).2

/-- A string all of whose characters survive cleaning is fixed by it. -/
lemma clean_fix_of_keep {l : JStr} (h : ∀ c ∈ l, keepChar c = true) :
    cleanISBN l = l := List.filter_eq_self.mpr h

/-- The sentinel written as an explicit cons. -/
lemma sentinel_cons : sentinel = '6' :: jstr ("666666666666") := rfl

/-- The prefix constant written as an explicit cons. -/
lemma jstr978_cons : jstr ("978") = '9' :: '7' :: '8' :: ([] : JStr) := rfl

/-- The weighted sum of a string of digits is a number, not NaN. -/
lemma sum13_some_of_digits :
    ∀ (l : JStr) (i : Nat), (∀ c ∈ l, c.isDigit = true) → ∃ n, sum13 l i = some n := by
  intro l
  induction l with
  | nil => exact fun i _ => ⟨0, rfl⟩
  | cons c cs ih =>
      intro i h
      obtain ⟨m, hm⟩ := ih (i + 1) (fun x hx => h x (List.mem_cons_of_mem _ hx))
      refine ⟨(c.toNat - 48) * (if i % 2 = 0 then 1 else 3) + m, ?_⟩
      simp [sum13, hm, parseIntChar, h c (List.mem_cons_self _ _), jsMul, jsAdd]

/-- The mod-11 sum of a string of digits is a number, not NaN. -/
lemma sum10_some_of_digits :
    ∀ (l : JStr) (i : Nat), (∀ c ∈ l, c.isDigit = true) → ∃ n, sum10 l i = some n := by
  intro l
  induction l with
  | nil => exact fun i _ => ⟨0, rfl⟩
  | cons c cs ih =>
      intro i h
      obtain ⟨m, hm⟩ := ih (i + 1) (fun x hx => h x (List.mem_cons_of_mem _ hx))
      refine ⟨(c.toNat - 48) * (10 - i) + m, ?_⟩
      simp [sum10, hm, parseIntChar, h c (List.mem_cons_self _ _), jsMul, jsAdd]

/-- A number below ten prints as its single digit character. -/
lemma toDigits_single (d : Nat) (h : d < 10) :
    Nat.toDigits 10 d = [Nat.digitChar d] := by
  interval_cases d <;> rfl

/-- Digit characters survive cleaning. -/
lemma digitChar_keep (d : Nat) (h : d < 10) : keepChar (Nat.digitChar d) = true := by
  interval_cases d <;> decide

/-- Digit characters are digits. -/
lemma digitChar_isDigit (d : Nat) (h : d < 10) : (Nat.digitChar d).isDigit = true := by
  interval_cases d <;> decide

/-- On a ten-character input the ISBN-10 to ISBN-13 conversion succeeds with
the literal working-string-plus-check-digit value. -/
lemma conv10_eq_of_len (c : JStr) (h : c.length = 10) :
    BookDatabase.convertISBN10ToISBN13 c =
      some ((jstr ("978") ++ c.take 9) ++
        numToStr (Option.map (fun n => (10 - n % 10) % 10)
          (sum13 (jstr ("978") ++ c.take 9) 0))) := by
  unfold BookDatabase.convertISBN10ToISBN13
  rw [if_neg (by rw [h]; decide)]

/-- Structure of a successful ISBN-10 to ISBN-13 conversion of a cleaned
string: thirteen characters, or fifteen on the NaN path; fixed by cleaning;
not the sentinel; nonempty; different from the input. -/
lemma conv10_shape (c k : JStr) (hfix : cleanISBN c = c)
    (h : BookDatabase.convertISBN10ToISBN13 c = some k) :
    (k.length = 13 ∨ k.length = 15) ∧ cleanISBN k = k ∧ k ≠ sentinel ∧
      k ≠ [] ∧ k ≠ c := by
  have hlen : c.length = 10 := by
    by_contra hne
    unfold BookDatabase.convertISBN10ToISBN13 at h
    rw [if_pos hne] at h
    exact Option.noConfusion h
  rw [conv10_eq_of_len c hlen] at h
  have hk := (Option.some_injective _ h).symm
  have htake9 : (c.take 9).length = 9 := by rw [List.length_take, hlen]; decide
  have hplen : (jstr ("978") ++ c.take 9).length = 12 := by
    rw [List.length_append, htake9]; rfl
  have hkeep : ∀ ch ∈ jstr ("978") ++ c.take 9, keepChar ch = true := by
    intro ch hch
    rcases List.mem_append.mp hch with h1 | h2
    · rw [jstr978_cons] at h1
      fin_cases h1 <;> decide
    · exact mem_clean_keep (hfix ▸ List.take_subset 9 c h2)
  have hnum : ((numToStr (Option.map (fun n => (10 - n % 10) % 10)
      (sum13 (jstr ("978") ++ c.take 9) 0))).length = 1 ∨
      (numToStr (Option.map (fun n => (10 - n % 10) % 10)
      (sum13 (jstr ("978") ++ c.take 9) 0))).length = 3) ∧
      ∀ ch ∈ numToStr (Option.map (fun n => (10 - n % 10) % 10)
        (sum13 (jstr ("978") ++ c.take 9) 0)), keepChar ch = true := by
    cases hs : sum13 (jstr ("978") ++ c.take 9) 0 with
    | none => exact ⟨Or.inr rfl, by decide⟩
    | some n =>
        have hd : (10 - n % 10) % 10 < 10 := Nat.mod_lt _ (by decide)
        constructor
        · left
          simp [numToStr, toDigits_single _ hd]
        · intro ch hch
          rw [Option.map_some'] at hch
          simp only [numToStr, toDigits_single _ hd, List.mem_singleton] at hch
          subst hch
          exact digitChar_keep _ hd
  refine ⟨?_, ?_, ?_, ?_, ?_⟩
  · rcases hnum.1 with h1 | h1
    · left; rw [hk, List.length_append, hplen, h1]
    · right; rw [hk, List.length_append, hplen, h1]
  · rw [hk]
    refine clean_fix_of_keep ?_
    intro ch hch
    rcases List.mem_append.mp hch with h1 | h2
    · exact hkeep ch h1
    · exact hnum.2 ch h2
  · rw [hk, jstr978_cons, sentinel_cons]
    simp
  · rw [hk, jstr978_cons]
    simp
  · intro he
    have : k.length = c.length := by rw [he]
    rw [hlen] at this
    rcases hnum.1 with h1 | h1 <;>
      rw [hk, List.length_append, hplen, h1] at this <;> exact absurd this (by decide)

/-- A nonempty list is not isEmpty. -/
lemma isEmpty_false_of_ne_nil {l : JStr} (h : l ≠ []) : l.isEmpty = false := by
  cases l with
  | nil => exact absurd rfl h
  | cons a t => rfl

/-- Sentinel branch of the client normalization. -/
lemma normalize_sentinel (s : JStr) (h : cleanISBN s = sentinel) :
    BookDatabase.normalizeISBN s = cleanISBN s := by
  simp only [BookDatabase.normalizeISBN]
  rw [if_pos h]

/-- Thirteen-character branch of the client normalization. -/
lemma normalize_13 (s : JStr) (h1 : cleanISBN s ≠ sentinel)
    (h2 : (cleanISBN s).length = 13) :
    BookDatabase.normalizeISBN s = cleanISBN s := by
  simp only [BookDatabase.normalizeISBN]
  rw [if_neg h1, if_pos h2]

/-- Ten-character branch of the client normalization: the conversion result
is returned. -/
lemma normalize_10 (s : JStr) (h3 : (cleanISBN s).length = 10) :
    ∃ k, BookDatabase.convertISBN10ToISBN13 (cleanISBN s) = some k ∧
      BookDatabase.normalizeISBN s = k := by
  have h1 : cleanISBN s ≠ sentinel := by
    intro he; rw [he] at h3; exact absurd h3 (by decide)
  have h2 : (cleanISBN s).length ≠ 13 := by rw [h3]; decide
  have hconv := conv10_eq_of_len (cleanISBN s) h3
  have hshape := conv10_shape (cleanISBN s) _ (clean_idem s) hconv
  refine ⟨_, hconv, ?_⟩
  simp only [BookDatabase.normalizeISBN]
  rw [if_neg h1, if_neg h2, if_pos h3, hconv]
  simp only
  rw [if_neg (by rw [isEmpty_false_of_ne_nil hshape.2.2.2.1]; exact Bool.false_ne_true)]

/-- Fallback branch of the client normalization. -/
lemma normalize_other (s : JStr) (h1 : cleanISBN s ≠ sentinel)
    (h2 : (cleanISBN s).length ≠ 13) (h3 : (cleanISBN s).length ≠ 10) :
    BookDatabase.normalizeISBN s = cleanISBN s := by
  simp only [BookDatabase.normalizeISBN]
  rw [if_neg h1, if_neg h2, if_neg h3]

/-- Sentinel branch of the server normalization. -/
lemma snormalize_sentinel (s : JStr) (h : cleanISBN s = sentinel) :
    ISBNServer.normalizeISBN s = cleanISBN s := by
  simp only [ISBNServer.normalizeISBN]
  rw [if_pos h]

/-- Thirteen-character branch of the server normalization. -/
lemma snormalize_13 (s : JStr) (h1 : cleanISBN s ≠ sentinel)
    (h2 : (cleanISBN s).length = 13) :
    ISBNServer.normalizeISBN s = cleanISBN s := by
  simp only [ISBNServer.normalizeISBN]
  rw [if_neg h1, if_pos h2]

/-- Ten-character branch of the server normalization: it computes exactly
the client conversion value. -/
lemma snormalize_10 (s : JStr) (h3 : (cleanISBN s).length = 10) :
    ∃ k, BookDatabase.convertISBN10ToISBN13 (cleanISBN s) = some k ∧
      ISBNServer.normalizeISBN s = k := by
  have h1 : cleanISBN s ≠ sentinel := by
    intro he; rw [he] at h3; exact absurd h3 (by decide)
  have h2 : (cleanISBN s).length ≠ 13 := by rw [h3]; decide
  have hconv := conv10_eq_of_len (cleanISBN s) h3
  refine ⟨_, hconv, ?_⟩
  simp only [ISBNServer.normalizeISBN]
  rw [if_neg h1, if_neg h2, if_pos h3]

/-- Fallback branch of the server normalization. -/
lemma snormalize_other (s : JStr) (h1 : cleanISBN s ≠ sentinel)
    (h2 : (cleanISBN s).length ≠ 13) (h3 : (cleanISBN s).length ≠ 10) :
    ISBNServer.normalizeISBN s = cleanISBN s := by
  simp only [ISBNServer.normalizeISBN]
  rw [if_neg h1, if_neg h2, if_neg h3]

/-- Client normalization is idempotent. -/
lemma norm_idem_client (s : JStr) :
    BookDatabase.normalizeISBN (BookDatabase.normalizeISBN s) =
      BookDatabase.normalizeISBN s := by
  by_cases h1 : cleanISBN s = sentinel
  · rw [normalize_sentinel s h1, h1]
    decide
  · by_cases h2 : (cleanISBN s).length = 13
    · rw [normalize_13 s h1 h2]
      rw [normalize_13 (cleanISBN s) (by rw [clean_idem]; exact h1) (by rw [clean_idem]; exact h2)]
      exact clean_idem s
    · by_cases h3 : (cleanISBN s).length = 10
      · obtain ⟨k, hconv, hnorm⟩ := normalize_10 s h3
        obtain ⟨hklen, hkfix, hksent, hkne, -⟩ := conv10_shape _ _ (clean_idem s) hconv
        rw [hnorm]
        rcases hklen with hk13 | hk15
        · rw [normalize_13 k (by rw [hkfix]; exact hksent) (by rw [hkfix]; exact hk13)]
          exact hkfix
        · rw [normalize_other k (by rw [hkfix]; exact hksent)
            (by rw [hkfix, hk15]; decide) (by rw [hkfix, hk15]; decide)]
          exact hkfix
      · rw [normalize_other s h1 h2 h3]
        rw [normalize_other (cleanISBN s) (by rw [clean_idem]; exact h1)
          (by rw [clean_idem]; exact h2) (by rw [clean_idem]; exact h3)]
        exact clean_idem s

/-- Server normalization is idempotent. -/
lemma norm_idem_server (s : JStr) :
    ISBNServer.normalizeISBN (ISBNServer.normalizeISBN s) =
      ISBNServer.normalizeISBN s := by
  by_cases h1 : cleanISBN s = sentinel
  · rw [snormalize_sentinel s h1, h1]
    decide
  · by_cases h2 : (cleanISBN s).length = 13
    · rw [snormalize_13 s h1 h2]
      rw [snormalize_13 (cleanISBN s) (by rw [clean_idem]; exact h1) (by rw [clean_idem]; exact h2)]
      exact clean_idem s
    · by_cases h3 : (cleanISBN s).length = 10
      · obtain ⟨k, hconv, hnorm⟩ := snormalize_10 s h3
        obtain ⟨hklen, hkfix, hksent, hkne, -⟩ := conv10_shape _ _ (clean_idem s) hconv
        rw [hnorm]
        rcases hklen with hk13 | hk15
        · rw [snormalize_13 k (by rw [hkfix]; exact hksent) (by rw [hkfix]; exact hk13)]
          exact hkfix
        · rw [snormalize_other k (by rw [hkfix]; exact hksent)
            (by rw [hkfix, hk15]; decide) (by rw [hkfix, hk15]; decide)]
          exact hkfix
      · rw [snormalize_other s h1 h2 h3]
        rw [snormalize_other (cleanISBN s) (by rw [clean_idem]; exact h1)
          (by rw [clean_idem]; exact h2) (by rw [clean_idem]; exact h3)]
        exact clean_idem s

/-- Claim C1: for a cleaned 13-character 978 input the variant set is
claimed to contain the derived ten-character ISBN-10 in both
implementations.  The client does compute it, but the server pushes the bare
nine-character substring of positions 3 to 11 without the recomputed check
character, shown here on the input 9780156013987. -/
theorem claim_C1_server_variant_lacks_check_char :
    ISBNServer.getISBNVariants (jstr ("9780156013987")) =
      [jstr ("9780156013987"), jstr ("015601398")] ∧
    (jstr ("015601398")).length = 9 ∧
    BookDatabase.getISBNVariants (jstr ("9780156013987")) =
      [jstr ("9780156013987"), jstr ("0156013983")] ∧
    BookDatabase.convertISBN13ToISBN10 (jstr ("9780156013987")) =
      some (jstr ("0156013983")) ∧
    (jstr ("0156013983")).length = 10 := by decide

/-- Claim C2: the sentinel is claimed always valid in both validators and
unchanged by normalization.  Both normalizations return it unchanged and the
client validator short-circuits it to valid, but the server validator has no
sentinel branch and rejects it with the prefix error. -/
theorem claim_C2_sentinel_validation :
    BookAPIService.validateISBN sentinel = ValidationResult.valid sentinel ∧
    BookDatabase.normalizeISBN sentinel = sentinel ∧
    ISBNServer.normalizeISBN sentinel = sentinel ∧
    ISBNServer.validateISBN sentinel =
      ValidationResult.invalid ISBNErr.invalidPrefix := by decide

/-- Claim C7: normalization is idempotent on every input string, in both the
client and the server implementation. -/
theorem claim_C7_normalize_idempotent :
    (∀ s : JStr, BookDatabase.normalizeISBN (BookDatabase.normalizeISBN s) =
      BookDatabase.normalizeISBN s) ∧
    (∀ s : JStr, ISBNServer.normalizeISBN (ISBNServer.normalizeISBN s) =
      ISBNServer.normalizeISBN s) :=
  ⟨norm_idem_client, norm_idem_server⟩

/-- Claim C8: every input whose cleaned form is not the sentinel and has
length other than 10 and 13 is rejected with the length error by both
validators, regardless of its characters, so the length rule fires first
after the sentinel short-circuit. -/
theorem claim_C8_invalid_length_first (s : JStr)
    (h1 : cleanISBN s ≠ sentinel) (h2 : (cleanISBN s).length ≠ 10)
    (h3 : (cleanISBN s).length ≠ 13) :
    BookAPIService.validateISBN s = ValidationResult.invalid ISBNErr.invalidLength ∧
    ISBNServer.validateISBN s = ValidationResult.invalid ISBNErr.invalidLength := by
  constructor
  · simp only [BookAPIService.validateISBN]
    rw [if_neg h1, if_pos (by simp [h2, h3])]
  · simp only [ISBNServer.validateISBN]
    rw [if_pos (by simp [h2, h3])]

/-- Witness for C8 at the concrete input 12345. -/
theorem claim_C8_witness :
    cleanISBN (jstr ("12345")) ≠ sentinel ∧
    (cleanISBN (jstr ("12345"))).length ≠ 10 ∧
    (cleanISBN (jstr ("12345"))).length ≠ 13 ∧
    (BookAPIService.validateISBN (jstr ("12345")) =
        ValidationResult.invalid ISBNErr.invalidLength ∧
      ISBNServer.validateISBN (jstr ("12345")) =
        ValidationResult.invalid ISBNErr.invalidLength) :=
  ⟨by decide, by decide, by decide,
    claim_C8_invalid_length_first (jstr ("12345")) (by decide) (by decide) (by decide)⟩

/-- Claim C6 counterexample: 1234567890 is ten characters and accepted by
validation (no check-digit verification anywhere), yet the round trip
returns 123456789X, not the input, so the round-trip claim fails for inputs
whose embedded check digit is inconsistent. -/
theorem claim_C6_counterexample :
    BookAPIService.validateISBN (jstr ("1234567890")) =
      ValidationResult.valid (jstr ("1234567890")) ∧
    BookDatabase.convertISBN10ToISBN13 (jstr ("1234567890")) =
      some (jstr ("9781234567897")) ∧
    BookDatabase.convertISBN13ToISBN10 (jstr ("9781234567897")) =
      some (jstr ("123456789X")) ∧
    jstr ("123456789X") ≠ jstr ("1234567890") := by decide

/-- Taking the length of the left part of an append returns the left part. -/
lemma take_len_append {α : Type} (l₁ l₂ : List α) (n : Nat) (h : l₁.length = n) :
    (l₁ ++ l₂).take n = l₁ := by
  subst h
  exact List.take_left _ _

/-- Claim C6 as amended: for every plain ten-character string accepted by the
client validator whose tenth character equals the check character recomputed
from its first nine digits, converting to ISBN-13 and back is the identity. -/
theorem claim_C6_roundtrip_amended (x : JStr) (hfix : cleanISBN x = x)
    (hlen : x.length = 10)
    (hv : BookAPIService.validateISBN x = ValidationResult.valid x)
    (hcons : x.drop 9 =
      checkChar10 (Option.map (fun s => (11 - s % 11) % 11) (sum10 (x.take 9) 0))) :
    ∃ r, BookDatabase.convertISBN10ToISBN13 x = some r ∧
      BookDatabase.convertISBN13ToISBN10 r = some x := by
  have hsent : x ≠ sentinel := by
    intro he
    rw [he] at hlen
    exact absurd hlen (by decide)
  have hm : matches10 x = true := by
    by_contra hm
    simp only [BookAPIService.validateISBN, hfix] at hv
    rw [if_neg hsent, if_neg (by simp [hlen]), if_pos hlen,
      if_pos (by simp [Bool.eq_false_iff.mpr hm])] at hv
    exact ValidationResult.noConfusion hv
  have hdig : ∀ c ∈ x.take 9, c.isDigit = true := by
    have h := hm
    unfold matches10 at h
    simp only [Bool.and_eq_true, List.all_eq_true] at h
    exact h.1.2
  have htake9 : (x.take 9).length = 9 := by rw [List.length_take, hlen]; decide
  have hpdig : ∀ c ∈ jstr ("978") ++ x.take 9, c.isDigit = true := by
    intro c hc
    rcases List.mem_append.mp hc with h1 | h2
    · rw [jstr978_cons] at h1
      fin_cases h1 <;> decide
    · exact hdig c h2
  obtain ⟨n, hn⟩ := sum13_some_of_digits (jstr ("978") ++ x.take 9) 0 hpdig
  have hd : (10 - n % 10) % 10 < 10 := Nat.mod_lt _ (by decide)
  have hconv := conv10_eq_of_len x hlen
  rw [hn] at hconv
  simp only [Option.map_some', numToStr, toDigits_single _ hd] at hconv
  refine ⟨_, hconv, ?_⟩
  have hr : (jstr ("978") ++ x.take 9) ++ [Nat.digitChar ((10 - n % 10) % 10)] =
      '9' :: '7' :: '8' :: (x.take 9 ++ [Nat.digitChar ((10 - n % 10) % 10)]) := by
    rw [jstr978_cons]
    rfl
  unfold BookDatabase.convertISBN13ToISBN10
  rw [hr]
  rw [if_neg (by simp [List.length_append, htake9])]
  rw [if_neg (by simp [startsWith3])]
  simp only [List.drop_succ_cons, List.drop_zero]
  have hcore : (x.take 9 ++ [Nat.digitChar ((10 - n % 10) % 10)]).take 9 = x.take 9 :=
    take_len_append _ _ 9 htake9
  rw [hcore, ← hcons, List.take_append_drop]

/-- Witness for the amended C6 at the concrete checksum-consistent ISBN-10
0156013983. -/
theorem claim_C6_witness :
    cleanISBN (jstr ("0156013983")) = jstr ("0156013983") ∧
    (jstr ("0156013983")).length = 10 ∧
    BookAPIService.validateISBN (jstr ("0156013983")) =
      ValidationResult.valid (jstr ("0156013983")) ∧
    (jstr ("0156013983")).drop 9 =
      checkChar10 (Option.map (fun s => (11 - s % 11) % 11)
        (sum10 ((jstr ("0156013983")).take 9) 0)) ∧
    (∃ r, BookDatabase.convertISBN10ToISBN13 (jstr ("0156013983")) = some r ∧
      BookDatabase.convertISBN13ToISBN10 r = some (jstr ("0156013983"))) :=
  ⟨by decide, by decide, by decide, by decide,
    claim_C6_roundtrip_amended (jstr ("0156013983")) (by decide) (by decide)
      (by decide) (by decide)⟩

/-- Claim C10: for every input whose cleaned form has ten characters with
nine leading digits, both normalizations return the thirteen-character
string 978 plus those nine digits plus the weighted check digit of the first
twelve, and the tenth character of the cleaned input never influences the
result. -/
theorem claim_C10_normalize_ten_char (s : JStr) :
    ((cleanISBN s).length = 10 →
      (∀ c ∈ (cleanISBN s).take 9, c.isDigit = true) →
      ∃ n, sum13 (jstr ("978") ++ (cleanISBN s).take 9) 0 = some n ∧
        BookDatabase.normalizeISBN s =
          (jstr ("978") ++ (cleanISBN s).take 9) ++
            [Nat.digitChar ((10 - n % 10) % 10)] ∧
        ISBNServer.normalizeISBN s = BookDatabase.normalizeISBN s ∧
        (BookDatabase.normalizeISBN s).length = 13 ∧
        startsWith3 '9' '7' '8' (BookDatabase.normalizeISBN s) = true) ∧
    (∀ t : JStr, (cleanISBN s).length = 10 → (cleanISBN t).length = 10 →
      (cleanISBN s).take 9 = (cleanISBN t).take 9 →
      BookDatabase.normalizeISBN s = BookDatabase.normalizeISBN t ∧
      ISBNServer.normalizeISBN s = ISBNServer.normalizeISBN t) := by
  constructor
  · intro hlen hdig
    obtain ⟨k, hconv, hnorm⟩ := normalize_10 s hlen
    obtain ⟨k2, hconv2, hnorm2⟩ := snormalize_10 s hlen
    have hk2 : k2 = k := by
      rw [hconv] at hconv2
      exact (Option.some_injective _ hconv2).symm
    have htake9 : ((cleanISBN s).take 9).length = 9 := by
      rw [List.length_take, hlen]; decide
    have hpdig : ∀ c ∈ jstr ("978") ++ (cleanISBN s).take 9, c.isDigit = true := by
      intro c hc
      rcases List.mem_append.mp hc with h1 | h2
      · rw [jstr978_cons] at h1
        fin_cases h1 <;> decide
      · exact hdig c h2
    obtain ⟨n, hn⟩ := sum13_some_of_digits _ 0 hpdig
    have hd : (10 - n % 10) % 10 < 10 := Nat.mod_lt _ (by decide)
    have hkval : k = (jstr ("978") ++ (cleanISBN s).take 9) ++
        [Nat.digitChar ((10 - n % 10) % 10)] := by
      have h := conv10_eq_of_len (cleanISBN s) hlen
      rw [hn] at h
      simp only [Option.map_some', numToStr, toDigits_single _ hd] at h
      rw [hconv] at h
      exact Option.some_injective _ h
    refine ⟨n, hn, ?_, ?_, ?_, ?_⟩
    · rw [hnorm, hkval]
    · rw [hnorm2, hk2, hnorm]
    · rw [hnorm, hkval, List.length_append, List.length_append, htake9]
      rfl
    · rw [hnorm, hkval, jstr978_cons]
      simp [startsWith3]
  · intro t hs ht hst
    obtain ⟨ks, hconvs, hnorms⟩ := normalize_10 s hs
    obtain ⟨kt, hconvt, hnormt⟩ := normalize_10 t ht
    obtain ⟨ks2, hconvs2, hnorms2⟩ := snormalize_10 s hs
    obtain ⟨kt2, hconvt2, hnormt2⟩ := snormalize_10 t ht
    have hks : ks = kt := by
      rw [conv10_eq_of_len _ hs, hst] at hconvs
      rw [conv10_eq_of_len _ ht] at hconvt
      rw [hconvs] at hconvt
      exact Option.some_injective _ hconvt
    have hks2 : ks2 = ks := by
      rw [hconvs] at hconvs2
      exact (Option.some_injective _ hconvs2).symm
    have hkt2 : kt2 = kt := by
      rw [hconvt] at hconvt2
      exact (Option.some_injective _ hconvt2).symm
    exact ⟨by rw [hnorms, hnormt, hks], by rw [hnorms2, hnormt2, hks2, hkt2, hks]⟩

/-- Witness for C10 at 0156013987 and at 015601398X, whose first nine digits
agree: the check characters 7 and X are both ignored. -/
theorem claim_C10_witness :
    (cleanISBN (jstr ("0156013987"))).length = 10 ∧
    (∀ c ∈ (cleanISBN (jstr ("0156013987"))).take 9, c.isDigit = true) ∧
    (cleanISBN (jstr ("015601398X"))).length = 10 ∧
    (∃ n, sum13 (jstr ("978") ++ (cleanISBN (jstr ("0156013987"))).take 9) 0 = some n ∧
      BookDatabase.normalizeISBN (jstr ("0156013987")) =
        (jstr ("978") ++ (cleanISBN (jstr ("0156013987"))).take 9) ++
          [Nat.digitChar ((10 - n % 10) % 10)] ∧
      ISBNServer.normalizeISBN (jstr ("0156013987")) =
        BookDatabase.normalizeISBN (jstr ("0156013987")) ∧
      (BookDatabase.normalizeISBN (jstr ("0156013987"))).length = 13 ∧
      startsWith3 '9' '7' '8' (BookDatabase.normalizeISBN (jstr ("0156013987"))) = true) ∧
    (BookDatabase.normalizeISBN (jstr ("0156013987")) =
        BookDatabase.normalizeISBN (jstr ("015601398X")) ∧
      ISBNServer.normalizeISBN (jstr ("0156013987")) =
        ISBNServer.normalizeISBN (jstr ("015601398X"))) :=
  ⟨by decide, by decide, by decide,
    (claim_C10_normalize_ten_char (jstr ("0156013987"))).1 (by decide) (by decide),
    (claim_C10_normalize_ten_char (jstr ("0156013987"))).2 (jstr ("015601398X"))
      (by decide) (by decide) (by decide)⟩

/-- A cons-shaped drop determines the element at the index and the next
drop. -/
lemma drop_cons_get {l : JStr} : ∀ {i : Nat} {c : Char} {t : JStr},
    l.drop i = c :: t → l.get? i = some c ∧ l.drop (i + 1) = t := by
  induction l with
  | nil =>
      intro i c t h
      rw [List.drop_nil] at h
      exact absurd h (by simp)
  | cons a l ih =>
      intro i c t h
      cases i with
      | zero =>
          rw [List.drop_zero] at h
          injection h with h1 h2
          subst h1
          subst h2
          exact ⟨rfl, rfl⟩
      | succ j =>
          have h' : l.drop j = c :: t := h
          exact ⟨(ih h').1, (ih h').2⟩

/-- The checked index loop of the ISBN-13 conversion computes the structural
weighted sum when the iteration count matches the remaining length. -/
lemma sumLoopE13_eq (l : JStr) : ∀ (n i : Nat), i + n = l.length →
    BookDatabase.sumLoopE13 l n i = Except.ok (sum13 (l.drop i) i) := by
  intro n
  induction n with
  | zero =>
      intro i h
      have hle : l.length ≤ i := by omega
      have hd : l.drop i = [] := List.drop_eq_nil_of_le hle
      rw [hd]
      rfl
  | succ m ih =>
      intro i h
      have hd : ∃ c t, l.drop i = c :: t := by
        cases hdrop : l.drop i with
        | nil =>
            have hlen := congrArg List.length hdrop
            rw [List.length_drop, List.length_nil] at hlen
            omega
        | cons c t => exact ⟨c, t, rfl⟩
      obtain ⟨c, t, hdrop⟩ := hd
      obtain ⟨hget, hdrop1⟩ := drop_cons_get (l := l) hdrop
      rw [hdrop]
      simp only [BookDatabase.sumLoopE13, charAtE, hget]
      rw [ih (i + 1) (by omega), hdrop1]
      simp [sum13]

/-- The checked index loop of the ISBN-10 conversion computes the structural
weighted sum when the iteration count matches the remaining length. -/
lemma sumLoopE10_eq (l : JStr) : ∀ (n i : Nat), i + n = l.length →
    BookDatabase.sumLoopE10 l n i = Except.ok (sum10 (l.drop i) i) := by
  intro n
  induction n with
  | zero =>
      intro i h
      have hle : l.length ≤ i := by omega
      have hd : l.drop i = [] := List.drop_eq_nil_of_le hle
      rw [hd]
      rfl
  | succ m ih =>
      intro i h
      have hd : ∃ c t, l.drop i = c :: t := by
        cases hdrop : l.drop i with
        | nil =>
            have hlen := congrArg List.length hdrop
            rw [List.length_drop, List.length_nil] at hlen
            omega
        | cons c t => exact ⟨c, t, rfl⟩
      obtain ⟨c, t, hdrop⟩ := hd
      obtain ⟨hget, hdrop1⟩ := drop_cons_get (l := l) hdrop
      rw [hdrop]
      simp only [BookDatabase.sumLoopE10, charAtE, hget]
      rw [ih (i + 1) (by omega), hdrop1]
      simp [sum10]

/-- The guarded branch of convertISBN13ToISBN10 written out. -/
lemma conv13_eq_of (c : JStr) (h13 : c.length = 13)
    (hs : startsWith3 '9' '7' '8' c = true) :
    BookDatabase.convertISBN13ToISBN10 c =
      some (((c.drop 3).take 9) ++ checkChar10 (Option.map (fun s => (11 - s % 11) % 11)
        (sum10 ((c.drop 3).take 9) 0))) := by
  unfold BookDatabase.convertISBN13ToISBN10
  rw [if_neg (by rw [h13]; decide), if_neg (by rw [hs]; decide)]

/-- Claim C9: both conversion functions are total on every input string: the
checked step-by-step evaluation, which faults on any out-of-range character
access, never faults and agrees with the pure embedding, which returns a
string or null on every input. -/
theorem claim_C9_conversions_total (s : JStr) :
    BookDatabase.convertISBN10ToISBN13X s =
      Except.ok (BookDatabase.convertISBN10ToISBN13 s) ∧
    BookDatabase.convertISBN13ToISBN10X s =
      Except.ok (BookDatabase.convertISBN13ToISBN10 s) := by
  constructor
  · by_cases hl : s.length = 10
    · have hp : (jstr ("978") ++ s.take 9).length = 12 := by
        rw [List.length_append, List.length_take, hl]
        rfl
      have hX : BookDatabase.convertISBN10ToISBN13X s =
          Except.ok (some ((jstr ("978") ++ s.take 9) ++
            numToStr (Option.map (fun n => (10 - n % 10) % 10)
              (sum13 (jstr ("978") ++ s.take 9) 0)))) := by
        unfold BookDatabase.convertISBN10ToISBN13X
        rw [if_neg (by rw [hl]; decide)]
        dsimp only
        rw [sumLoopE13_eq _ 12 0 (by rw [hp]), List.drop_zero]
      rw [hX, conv10_eq_of_len s hl]
    · have h1 : BookDatabase.convertISBN10ToISBN13 s = none := by
        unfold BookDatabase.convertISBN10ToISBN13
        rw [if_pos hl]
      have h2 : BookDatabase.convertISBN10ToISBN13X s = Except.ok none := by
        unfold BookDatabase.convertISBN10ToISBN13X
        rw [if_pos hl]
      rw [h1, h2]
  · by_cases hl : s.length = 13
    · by_cases hs : startsWith3 '9' '7' '8' s = true
      · have hc : ((s.drop 3).take 9).length = 9 := by
          rw [List.length_take, List.length_drop, hl]
          decide
        have hX : BookDatabase.convertISBN13ToISBN10X s =
            Except.ok (some (((s.drop 3).take 9) ++
              checkChar10 (Option.map (fun s => (11 - s % 11) % 11)
                (sum10 ((s.drop 3).take 9) 0)))) := by
          unfold BookDatabase.convertISBN13ToISBN10X
          rw [if_neg (by rw [hl]; decide), if_neg (by rw [hs]; decide)]
          dsimp only
          rw [sumLoopE10_eq _ 9 0 (by rw [hc]), List.drop_zero]
        rw [hX, conv13_eq_of s hl hs]
      · have hs2 : startsWith3 '9' '7' '8' s = false := Bool.eq_false_iff.mpr hs
        have h1 : BookDatabase.convertISBN13ToISBN10 s = none := by
          unfold BookDatabase.convertISBN13ToISBN10
          rw [if_neg (by rw [hl]; decide), if_pos (by rw [hs2]; decide)]
        have h2 : BookDatabase.convertISBN13ToISBN10X s = Except.ok none := by
          unfold BookDatabase.convertISBN13ToISBN10X
          rw [if_neg (by rw [hl]; decide), if_pos (by rw [hs2]; decide)]
        rw [h1, h2]
    · have h1 : BookDatabase.convertISBN13ToISBN10 s = none := by
        unfold BookDatabase.convertISBN13ToISBN10
        rw [if_pos hl]
      have h2 : BookDatabase.convertISBN13ToISBN10X s = Except.ok none := by
        unfold BookDatabase.convertISBN13ToISBN10X
        rw [if_pos hl]
      rw [h1, h2]

/-- Reading a store at the key just written returns the written value. -/
lemma setK_self (st : Store) (k : JStr) (v : Option Record) : setK st k v k = v := by
  simp [setK]

/-- Reading a store at another key is unchanged by a write. -/
lemma setK_ne (st : Store) (k j : JStr) (v : Option Record) (h : j ≠ k) :
    setK st k v j = st j := by
  simp [setK, h]

/-- The probe loop only returns records actually stored under the returned
key. -/
lemma findBookAux_eq :
    ∀ (l : List JStr) (st : Store) (r : Record) (v : JStr),
      BookDatabase.findBookAux l st = some (r, v) → st v = some r := by
  intro l
  induction l with
  | nil =>
      intro st r v h
      exact absurd h (by simp [BookDatabase.findBookAux])
  | cons a t ih =>
      intro st r v h
      simp only [BookDatabase.findBookAux] at h
      cases ha : st a with
      | some r0 =>
          rw [ha] at h
          simp only [Option.some.injEq, Prod.mk.injEq] at h
          rw [← h.2, ha, h.1]
      | none =>
          rw [ha] at h
          exact ih st r v h

/-- A successful client lookup returns the stored record extended with the
foundWithISBN field set to the key it was found under. -/
lemma findBook_eq (st : Store) (isbn : JStr) (rec : Record) (k : JStr)
    (h : BookDatabase.findBook st isbn = some (rec, k)) :
    ∃ r0, st k = some r0 ∧ rec = setF r0 ("foundWithISBN") (JSVal.str k) := by
  unfold BookDatabase.findBook at h
  cases ha : BookDatabase.findBookAux (BookDatabase.getISBNVariants isbn) st with
  | none =>
      rw [ha] at h
      exact absurd h (by simp)
  | some pr =>
      obtain ⟨r0, v⟩ := pr
      rw [ha] at h
      simp only [Option.some.injEq, Prod.mk.injEq] at h
      obtain ⟨h1, h2⟩ := h
      subst h2
      exact ⟨r0, findBookAux_eq _ st r0 _ ha, h1.symm⟩

/-- Claim C4: when an upsert finds the existing record under a key different
from the computed canonical key, the old entry is removed and the merged
record ends up only under the canonical key, for addBook and for
updateBookField; and the concrete two-upsert scenario over the empty store
ends with exactly one record, under 9780156013987, holding both fields. -/
theorem claim_C4_upsert_single_canonical_key :
    (∀ (st : Store) (isbn : JStr) (info : Record) (now : JSVal)
      (rec : Record) (fk : JStr),
      BookDatabase.findBook st isbn = some (rec, fk) →
      fk ≠ BookDatabase.normalizeISBN isbn →
      (BookDatabase.addBook st isbn info now).1 fk = none ∧
      (BookDatabase.addBook st isbn info now).1 (BookDatabase.normalizeISBN isbn) =
        some (BookDatabase.addBook st isbn info now).2 ∧
      ∀ k, k ≠ BookDatabase.normalizeISBN isbn → k ≠ fk →
        (BookDatabase.addBook st isbn info now).1 k = st k) ∧
    (∀ (st : Store) (isbn : JStr) (field : String) (v now : JSVal)
      (rec : Record) (fk : JStr),
      BookDatabase.findBook st isbn = some (rec, fk) →
      fk ≠ BookDatabase.normalizeISBN isbn →
      (BookDatabase.updateBookField st isbn field v now).1 fk = none ∧
      (∃ r, (BookDatabase.updateBookField st isbn field v now).1
        (BookDatabase.normalizeISBN isbn) = some r) ∧
      ∀ k, k ≠ BookDatabase.normalizeISBN isbn → k ≠ fk →
        (BookDatabase.updateBookField st isbn field v now).1 k = st k) ∧
    (∀ now1 now2 : JSVal,
      ∃ r, (BookDatabase.addBook
          (BookDatabase.addBook emptyStore (jstr ("9780156013987")) titleRec now1).1
          (jstr ("0156013987")) pageRec now2).1 (jstr ("9780156013987")) = some r ∧
        r ("title") = some (JSVal.str (jstr ("Le Petit Prince"))) ∧
        r ("pageCount") = some (JSVal.num 96) ∧
        ∀ k, k ≠ jstr ("9780156013987") →
          (BookDatabase.addBook
            (BookDatabase.addBook emptyStore (jstr ("9780156013987")) titleRec now1).1
            (jstr ("0156013987")) pageRec now2).1 k = none) := by
  refine ⟨?_, ?_, ?_⟩
  · intro st isbn info now rec fk hfind hfk
    unfold BookDatabase.addBook
    rw [hfind]
    dsimp only
    rw [if_pos hfk]
    refine ⟨?_, ?_, fun k h1 h2 => ?_⟩
    · rw [setK_ne _ _ _ _ hfk, setK_self]
    · rw [setK_self]
    · rw [setK_ne _ _ _ _ h1, setK_ne _ _ _ _ h2]
  · intro st isbn field v now rec fk hfind hfk
    obtain ⟨r0, hst0, hrec⟩ := findBook_eq st isbn rec fk hfind
    have hnf : BookDatabase.normalizeISBN isbn ≠ fk := Ne.symm hfk
    unfold BookDatabase.updateBookField
    rw [hfind]
    dsimp only
    rw [if_pos hfk]
    have hmid : (setK (setK st (BookDatabase.normalizeISBN isbn) (st fk)) fk none)
        (BookDatabase.normalizeISBN isbn) = some r0 := by
      rw [setK_ne _ _ _ _ hnf, setK_self, hst0]
    rw [hmid]
    dsimp only
    refine ⟨?_, ⟨_, setK_self _ _ _⟩, fun k h1 h2 => ?_⟩
    · rw [setK_ne _ _ _ _ hfk, setK_self]
    · rw [setK_ne _ _ _ _ h1, setK_ne _ _ _ _ h2, setK_ne _ _ _ _ h1]
  · intro now1 now2
    have hst1 : (BookDatabase.addBook emptyStore (jstr ("9780156013987")) titleRec now1).1 =
        setK emptyStore (jstr ("9780156013987"))
          (some (setF (setF titleRec ("lastUpdated") now1) ("source")
            (JSVal.str (jstr ("unknown"))))) := rfl
    rw [hst1]
    have hst2 : (BookDatabase.addBook
        (setK emptyStore (jstr ("9780156013987"))
          (some (setF (setF titleRec ("lastUpdated") now1) ("source")
            (JSVal.str (jstr ("unknown"))))))
        (jstr ("0156013987")) pageRec now2).1 =
        setK (setK emptyStore (jstr ("9780156013987"))
          (some (setF (setF titleRec ("lastUpdated") now1) ("source")
            (JSVal.str (jstr ("unknown"))))))
          (jstr ("9780156013987"))
          (some (setF (spread
            (setF (setF (setF titleRec ("lastUpdated") now1) ("source")
              (JSVal.str (jstr ("unknown"))))
              ("foundWithISBN") (JSVal.str (jstr ("9780156013987"))))
            pageRec) ("lastUpdated") now2)) := rfl
    rw [hst2]
    refine ⟨_, setK_self _ _ _, ?_, ?_, fun k hk => ?_⟩
    · simp [setF, spread, titleRec, pageRec]
    · simp [setF, spread, titleRec, pageRec]
    · rw [setK_ne _ _ _ _ hk, setK_ne _ _ _ _ hk]
      rfl

/-- Witness for C4 at a record stored under the ISBN-10 key 0156013983 and
an upsert arriving with the ISBN-13 form. -/
theorem claim_C4_witness :
    BookDatabase.findBook (setK emptyStore (jstr ("0156013983")) (some c3book))
        (jstr ("9780156013987")) =
      some (setF c3book ("foundWithISBN") (JSVal.str (jstr ("0156013983"))),
        jstr ("0156013983")) ∧
    jstr ("0156013983") ≠ BookDatabase.normalizeISBN (jstr ("9780156013987")) ∧
    ((BookDatabase.addBook (setK emptyStore (jstr ("0156013983")) (some c3book))
        (jstr ("9780156013987")) pageRec (JSVal.num 0)).1 (jstr ("0156013983")) = none ∧
      (BookDatabase.addBook (setK emptyStore (jstr ("0156013983")) (some c3book))
        (jstr ("9780156013987")) pageRec (JSVal.num 0)).1
          (BookDatabase.normalizeISBN (jstr ("9780156013987"))) =
        some (BookDatabase.addBook (setK emptyStore (jstr ("0156013983")) (some c3book))
          (jstr ("9780156013987")) pageRec (JSVal.num 0)).2 ∧
      ∀ k, k ≠ BookDatabase.normalizeISBN (jstr ("9780156013987")) →
        k ≠ jstr ("0156013983") →
        (BookDatabase.addBook (setK emptyStore (jstr ("0156013983")) (some c3book))
          (jstr ("9780156013987")) pageRec (JSVal.num 0)).1 k =
          setK emptyStore (jstr ("0156013983")) (some c3book) k) :=
  ⟨rfl, by decide,
    claim_C4_upsert_single_canonical_key.1
      (setK emptyStore (jstr ("0156013983")) (some c3book))
      (jstr ("9780156013987")) pageRec (JSVal.num 0)
      (setF c3book ("foundWithISBN") (JSVal.str (jstr ("0156013983"))))
      (jstr ("0156013983")) rfl (by decide)⟩

/-- Claim C3 counterexample: with the record stored under its ISBN-13
canonical key 9780156013987, a server delete by the equivalent ISBN-10
0156013983 reports that nothing existed and removes nothing, refuting the
claim for the server store. -/
theorem claim_C3_counterexample :
    BookDatabase.convertISBN13ToISBN10 (jstr ("9780156013987")) =
      some (jstr ("0156013983")) ∧
    c3store (jstr ("9780156013987")) = some c3book ∧
    ISBNServer.deleteBook c3store (jstr ("0156013983")) = (c3store, false) ∧
    (ISBNServer.deleteBook c3store (jstr ("0156013983"))).1 (jstr ("9780156013987")) =
      some c3book :=
  ⟨by decide, rfl, rfl, rfl⟩

/-- Claim C3 as amended: deleting by the equivalent ISBN-10 input removes a
record stored under the ISBN-13 canonical key and reports it existed in the
client store; the server store deletes only an entry stored under exactly
the cleaned input key and otherwise reports not found and changes nothing. -/
theorem claim_C3_delete_amended :
    (∀ (st : Store) (i10 k13 : JStr) (b : Record),
      BookDatabase.convertISBN10ToISBN13 (cleanISBN i10) = some k13 →
      st k13 = some b →
      (BookDatabase.deleteBook st i10).1 k13 = none ∧
      (BookDatabase.deleteBook st i10).2 = true) ∧
    (∀ (st : Store) (isbn c : JStr),
      ISBNServer.validateISBN isbn = ValidationResult.valid c →
      ((∀ r : Record, st c = some r →
          ISBNServer.deleteBook st isbn = (setK st c none, true)) ∧
        (st c = none → ISBNServer.deleteBook st isbn = (st, false)))) := by
  constructor
  · intro st i10 k13 b hconv hst
    have hlen : (cleanISBN i10).length = 10 := by
      by_contra hne
      unfold BookDatabase.convertISBN10ToISBN13 at hconv
      rw [if_pos hne] at hconv
      exact Option.noConfusion hconv
    have hshape := conv10_shape (cleanISBN i10) k13 (clean_idem i10) hconv
    have hkc : k13 ≠ cleanISBN i10 := hshape.2.2.2.2
    have hmem : k13 ∉ [cleanISBN i10] := by
      intro hm
      exact hkc (List.mem_singleton.mp hm)
    have hvar : BookDatabase.getISBNVariants i10 = [cleanISBN i10, k13] := by
      unfold BookDatabase.getISBNVariants
      dsimp only
      rw [if_pos hlen, hconv]
      dsimp only
      rw [if_neg (by rw [isEmpty_false_of_ne_nil hshape.2.2.2.1]; exact Bool.false_ne_true)]
      rw [if_neg (by rw [hlen]; simp)]
      unfold addUnique
      rw [if_neg hmem]
      rfl
    cases hc : st (cleanISBN i10) with
    | some r1 =>
        have hres : BookDatabase.deleteBook st i10 =
            (setK (setK st (cleanISBN i10) none) k13 none, true) := by
          unfold BookDatabase.deleteBook
          rw [hvar]
          simp only [BookDatabase.deleteAux]
          rw [hc]
          dsimp only
          rw [setK_ne _ _ _ _ hkc, hst]
        rw [hres]
        exact ⟨setK_self _ _ _, rfl⟩
    | none =>
        have hres : BookDatabase.deleteBook st i10 = (setK st k13 none, true) := by
          unfold BookDatabase.deleteBook
          rw [hvar]
          simp only [BookDatabase.deleteAux]
          rw [hc]
          dsimp only
          rw [hst]
        rw [hres]
        exact ⟨setK_self _ _ _, rfl⟩
  · intro st isbn c hval
    constructor
    · intro r hr
      unfold ISBNServer.deleteBook
      rw [hval]
      dsimp only
      rw [hr]
    · intro hr
      unfold ISBNServer.deleteBook
      rw [hval]
      dsimp only
      rw [hr]

/-- Witness for the amended C3: the client delete by 0156013983 removes the
record stored under 9780156013987 and reports success. -/
theorem claim_C3_witness :
    BookDatabase.convertISBN10ToISBN13 (cleanISBN (jstr ("0156013983"))) =
      some (jstr ("9780156013987")) ∧
    c3store (jstr ("9780156013987")) = some c3book ∧
    ((BookDatabase.deleteBook c3store (jstr ("0156013983"))).1
        (jstr ("9780156013987")) = none ∧
      (BookDatabase.deleteBook c3store (jstr ("0156013983"))).2 = true) :=
  ⟨by decide, rfl,
    claim_C3_delete_amended.1 c3store (jstr ("0156013983")) (jstr ("9780156013987"))
      c3book (by decide) rfl⟩

/-- Claim C5 counterexample: upserting an empty update over the record
stored under 9780156013987 produces a record that sets the bookkeeping field
foundWithISBN, absent from both the existing record and the update and
neither identifier nor timestamp, and leaves the stale isbn field 0156013983
unrefreshed instead of setting it to the normalized key. -/
theorem claim_C5_counterexample :
    (¬ ∀ f : String, f ≠ ("isbn") → f ≠ ("lastUpdated") → f ≠ ("updatedAt") →
        f ≠ ("createdAt") →
        c5result f = (match emptyRec f with
          | some v => some v
          | none => c5existing f)) ∧
    c5result ("foundWithISBN") = some (JSVal.str (jstr ("9780156013987"))) ∧
    c5existing ("foundWithISBN") = none ∧
    c5result ("isbn") = some (JSVal.str (jstr ("0156013983"))) ∧
    BookDatabase.normalizeISBN (jstr ("9780156013987")) = jstr ("9780156013987") ∧
    jstr ("0156013983") ≠ jstr ("9780156013987") := by
  refine ⟨?_, rfl, rfl, rfl, by decide, by decide⟩
  intro h
  exact absurd (h ("foundWithISBN") (by decide) (by decide) (by decide) (by decide))
    (by decide)

/-- Claim C5 as amended: incoming fields win and absent incoming fields are
preserved, except that the server updateBook always sets isbn to the cleaned
input and updatedAt to the merge time, while the client addBook always sets
lastUpdated to the merge time and merges over the lookup record, which is
the stored record extended with the foundWithISBN key; the client never
refreshes an isbn field, and createdAt is preserved whenever the update does
not contain it. -/
theorem claim_C5_merge_frame_amended :
    (∀ (st : Store) (isbn : JStr) (updates : Record) (now : JSVal)
      (c : JStr) (existing : Record),
      ISBNServer.validateISBN isbn = ValidationResult.valid c →
      st c = some existing →
      ∃ final, ISBNServer.updateBook st isbn updates now =
          (setK st c (some final), some final) ∧
        (∀ f : String, f ≠ ("isbn") → f ≠ ("updatedAt") →
          final f = (match updates f with
            | some v => some v
            | none => existing f)) ∧
        final ("isbn") = some (JSVal.str c) ∧
        final ("updatedAt") = some now) ∧
    (∀ (st : Store) (isbn : JStr) (info : Record) (now : JSVal)
      (rec : Record) (fk : JStr),
      BookDatabase.findBook st isbn = some (rec, fk) →
      (∀ f : String, f ≠ ("lastUpdated") →
        (BookDatabase.addBook st isbn info now).2 f =
          (match info f with
            | some v => some v
            | none => rec f)) ∧
      (BookDatabase.addBook st isbn info now).2 ("lastUpdated") = some now ∧
      ∃ r0, st fk = some r0 ∧ rec = setF r0 ("foundWithISBN") (JSVal.str fk)) := by
  constructor
  · intro st isbn updates now c existing hval hst
    unfold ISBNServer.updateBook
    rw [hval]
    dsimp only
    rw [hst]
    dsimp only
    refine ⟨_, rfl, ?_, ?_, ?_⟩
    · intro f h1 h2
      simp [setF, h1, h2, spread]
    · simp [setF]
    · simp [setF]
  · intro st isbn info now rec fk hfind
    have hex := findBook_eq st isbn rec fk hfind
    unfold BookDatabase.addBook
    rw [hfind]
    dsimp only
    refine ⟨?_, ?_, hex⟩
    · intro f h1
      simp [setF, h1, spread]
    · simp [setF]

/-- Witness for the amended C5 at the merge-frame store, for the server
update and the client merge. -/
theorem claim_C5_witness :
    ISBNServer.validateISBN (jstr ("9780156013987")) =
      ValidationResult.valid (jstr ("9780156013987")) ∧
    c5store (jstr ("9780156013987")) = some c5existing ∧
    (∃ final, ISBNServer.updateBook c5store (jstr ("9780156013987")) pageRec
        (JSVal.num 1) =
        (setK c5store (jstr ("9780156013987")) (some final), some final) ∧
      (∀ f : String, f ≠ ("isbn") → f ≠ ("updatedAt") →
        final f = (match pageRec f with
          | some v => some v
          | none => c5existing f)) ∧
      final ("isbn") = some (JSVal.str (jstr ("9780156013987"))) ∧
      final ("updatedAt") = some (JSVal.num 1)) ∧
    BookDatabase.findBook c5store (jstr ("9780156013987")) =
      some (setF c5existing ("foundWithISBN") (JSVal.str (jstr ("9780156013987"))),
        jstr ("9780156013987")) ∧
    ((∀ f : String, f ≠ ("lastUpdated") →
        (BookDatabase.addBook c5store (jstr ("9780156013987")) pageRec
          (JSVal.num 1)).2 f =
          (match pageRec f with
            | some v => some v
            | none => setF c5existing ("foundWithISBN")
                (JSVal.str (jstr ("9780156013987"))) f)) ∧
      (BookDatabase.addBook c5store (jstr ("9780156013987")) pageRec
        (JSVal.num 1)).2 ("lastUpdated") = some (JSVal.num 1) ∧
      ∃ r0, c5store (jstr ("9780156013987")) = some r0 ∧
        setF c5existing ("foundWithISBN") (JSVal.str (jstr ("9780156013987"))) =
          setF r0 ("foundWithISBN") (JSVal.str (jstr ("9780156013987")))) :=
  ⟨by decide, rfl,
    claim_C5_merge_frame_amended.1 c5store (jstr ("9780156013987")) pageRec
      (JSVal.num 1) (jstr ("9780156013987")) c5existing (by decide) rfl,
    rfl,
    claim_C5_merge_frame_amended.2 c5store (jstr ("9780156013987")) pageRec
      (JSVal.num 1)
      (setF c5existing ("foundWithISBN") (JSVal.str (jstr ("9780156013987"))))
      (jstr ("9780156013987")) rfl⟩
